import Mathlib

/-!
Verification of the email ingestion and agent-invocation pipeline of
`amazon-bedrock-agentcore-lambda` against its natural-language specification.

Each Python module under `src/` is shallowly embedded as executable Lean
definitions; network and filesystem effects are passed in as explicit
oracles, and call counts / sleeps are returned in trace structures so that
claims about "number of attempts", "zero fetches" and the like become
statements about those counters.
-/


namespace AgentCore

/-! Embedding of `src/integrations/agentcore_invocation.py`.

The boto3 `ClientError` is modelled by its error code and message, the two
fields the module reads from `e.response['Error']`.  A transport oracle
`transport : Nat → Except ClientError String` gives, for each attempt
index, either the agent output text (the combined effect of the
`bedrock_client.invoke_agent` call and `_parse_eventstream_response`) or a
`ClientError`.  The trace records the number of transport attempts made and
every `time.sleep` performed (in tenths of a second, since the code sleeps
`(2 ** attempt) * 0.1` seconds). -/

structure ClientError where
  code : String
  message : String
deriving Repr, DecidableEq

/-- The module's exception taxonomy: `ValidationException`,
`AgentNotFoundException`, `ThrottlingException`, plus re-raised
`ClientError`. -/
inductive InvokeError where
  | validation (msg : String)
  | agentNotFound (msg : String)
  | throttling (msg : String)
  | client (e : ClientError)
deriving Repr, DecidableEq

/-- `retryable_errors` list from `invoke_agent` (line 227 of the source). -/
def retryable_errors : List String :=
  ["ThrottlingException", "InternalServerException", "ServiceQuotaExceededException"]

/-- `max_retries = 3` from `invoke_agent` (line 226 of the source). -/
def max_retries : Nat := 3

deriving instance DecidableEq for Except

/-- Trace of one `invoke_agent` call.  `result = none` models Python
falling off the `for` loop and implicitly returning `None` (unreachable
from the entry point, kept for faithfulness); `attempts` counts transport
calls; `sleepsTenths` lists every internal back-off sleep in tenths of a
second. -/
structure InvokeTrace where
  result : Option (Except InvokeError String)
  attempts : Nat
  sleepsTenths : List Nat
deriving Repr, DecidableEq

/-- The `for attempt in range(max_retries)` loop of `invoke_agent`
(lines 229-295).  `fuel` is the number of loop iterations left. -/
def invokeLoop (transport : Nat → Except ClientError String) :
    (attempt : Nat) → (fuel : Nat) → InvokeTrace
  | _, 0 => ⟨none, 0, []⟩
  | attempt, fuel + 1 =>
    match transport attempt with
    | .ok out => ⟨some (.ok out), 1, []⟩
    | .error e =>
      if e.code = "ResourceNotFoundException" then
        ⟨some (.error (.agentNotFound ("Agent not found. Error: " ++ e.message))), 1, []⟩
      else if e.code ∈ retryable_errors then
        if attempt < max_retries - 1 then
          -- exponential backoff: time.sleep((2 ** attempt) * 0.1), then continue
          let rest := invokeLoop transport (attempt + 1) fuel
          ⟨rest.result, rest.attempts + 1, (2 ^ attempt) :: rest.sleepsTenths⟩
        else
          ⟨some (.error (.throttling
            ("Request throttled by Bedrock service after 3 attempts. " ++
             "Retry after a longer delay. Error: " ++ e.message))), 1, []⟩
      else
        ⟨some (.error (.client e)), 1, []⟩

/-- `_generate_session_id`: UUID4 prefixed with "session-".  The fresh
UUID4 is an oracle argument; its canonical string form has 36 characters. -/
def generate_session_id (u : String) : String := "session-" ++ u

/-- `invoke_agent(prompt, session_id)` (lines 142-295).  Prompts are typed
as strings in the embedding, so of the Python check
`not prompt or not isinstance(prompt, str)` only the emptiness test
remains; likewise the `isinstance(session_id, str)` branch disappears. -/
def invoke_agent (prompt : String) (session_id : Option String)
    (freshUuid : String) (transport : Nat → Except ClientError String) : InvokeTrace :=
  if prompt = "" then
    ⟨some (.error (.validation "Prompt must be a non-empty string.")), 0, []⟩
  else
    match session_id with
    | some sid =>
      if sid.length < 33 then
        ⟨some (.error (.validation
          "session_id must be at least 33 characters long (Bedrock requirement).")), 0, []⟩
      else invokeLoop transport 0 max_retries
    | none =>
      -- session_id := _generate_session_id(); the loop does not depend on it
      let _sid := generate_session_id freshUuid
      invokeLoop transport 0 max_retries

/-- A transport that is throttled on every attempt. -/
def alwaysThrottled : Nat → Except ClientError String :=
  fun _ => .error ⟨"ThrottlingException", "Throttled"⟩

end AgentCore

namespace Prompts

/-! Embedding of `src/services/prompts.py`.

The module-level `_prompt_cache` dict is an association list from cache
key to (content, load timestamp); time is a `Nat` (seconds).  The two
fetch sources are oracles: `s3Fetch name = none` models a `ClientError`
from `s3_client.get_object` (swallowed by `load_prompt`), and
`fsFetch name = none` models `FileNotFoundError` from `open`.  The
`PROMPT_BUCKET` configuration is `Option String`, `none` for
unset/empty. -/

/-- Result of one `load_prompt` call: the outcome (the error is the
`ValueError` message, minus the quoting of the name), the cache after the
call, and how many S3 `get_object` and filesystem `open` operations the
call performed. -/
structure LoadTrace where
  result : Except String String
  cache : List (String × String × Nat)
  s3Calls : Nat
  fsCalls : Nat
deriving Repr, DecidableEq

/-- `cache_key in _prompt_cache` / `_prompt_cache[cache_key]`. -/
def cacheLookup (cache : List (String × String × Nat)) (k : String) :
    Option (String × Nat) :=
  match cache with
  | [] => none
  | (k2, c, t) :: rest => if k2 = k then some (c, t) else cacheLookup rest k

/-- `_prompt_cache[cache_key] = (content, time)`: dict assignment
overwrites the entry for that key. -/
def cacheInsert (cache : List (String × String × Nat)) (k : String)
    (c : String) (t : Nat) : List (String × String × Nat) :=
  (k, c, t) :: cache.filter (fun e => e.1 ≠ k)

/-- The miss/expiry path of `load_prompt` (lines 144-174): S3 override if
a bucket is configured, errors swallowed, fall back to the local
filesystem, absence there a hard `ValueError`; a successful load is
written back into the cache with the current timestamp. -/
def loadFresh (bucket : Option String) (s3Fetch fsFetch : String → Option String)
    (cache : List (String × String × Nat)) (cache_key prompt_name : String)
    (now : Nat) : LoadTrace :=
  match bucket with
  | some _ =>
    match s3Fetch prompt_name with
    | some content => ⟨.ok content, cacheInsert cache cache_key content now, 1, 0⟩
    | none =>
      match fsFetch prompt_name with
      | some content => ⟨.ok content, cacheInsert cache cache_key content now, 1, 1⟩
      | none =>
        ⟨.error ("Prompt " ++ prompt_name ++ " not found in S3 or local filesystem"),
          cache, 1, 1⟩
  | none =>
    match fsFetch prompt_name with
    | some content => ⟨.ok content, cacheInsert cache cache_key content now, 0, 1⟩
    | none =>
      ⟨.error ("Prompt " ++ prompt_name ++ " not found in S3 or local filesystem"),
        cache, 0, 1⟩

/-- `load_prompt(prompt_name, use_cache)` (lines 107-174): a cache hit
younger than the TTL is returned with no fetch; otherwise the fresh-load
chain runs. -/
def load_prompt (bucket : Option String) (ttl : Nat)
    (s3Fetch fsFetch : String → Option String)
    (cache : List (String × String × Nat)) (prompt_name : String)
    (use_cache : Bool) (now : Nat) : LoadTrace :=
  let cache_key := "prompt:" ++ prompt_name
  match use_cache, cacheLookup cache cache_key with
  | true, some (content, t) =>
    if now - t < ttl then ⟨.ok content, cache, 0, 0⟩
    else loadFresh bucket s3Fetch fsFetch cache cache_key prompt_name now
  | true, none => loadFresh bucket s3Fetch fsFetch cache cache_key prompt_name now
  | false, _ => loadFresh bucket s3Fetch fsFetch cache cache_key prompt_name now

/-- Errors of Python `str.format` on the templates this repository uses
(plain-name placeholders, no conversion or format specs): `KeyError`
carrying the missing variable name, `ValueError` for a stray brace. -/
inductive FmtError where
  | keyError (name : String)
  | valueError (msg : String)
deriving Repr, DecidableEq

/-- Keyword-argument lookup during substitution. -/
def lookupVar (vars : List (String × String)) (name : String) : Option String :=
  match vars with
  | [] => none
  | (k, v) :: rest => if k = name then some v else lookupVar rest name

/-- Python `template.format(**vars)` for this repository's templates, as a
character scan.  `field = none` is literal mode: a doubled
brace emits one literal brace, a single `\x7b` opens a replacement field,
a single `\x7d` is a `ValueError`.  `field = some acc` accumulates a field
name (reversed) until the closing brace, then substitutes the looked-up
value — which is spliced verbatim and never rescanned.  Returns the output
together with the list of substituted placeholder names, in order. -/
def pyFormatGo (vars : List (String × String)) :
    (field : Option (List Char)) → List Char → Except FmtError (String × List String)
  | none, [] => .ok ("", [])
  | some _, [] => .error (.valueError "Single brace encountered in format string")
  | some acc, c :: rest =>
    if c = '}' then
      let name := String.mk acc.reverse
      match lookupVar vars name with
      | some v => (fun p => (v ++ p.1, name :: p.2)) <$> pyFormatGo vars none rest
      | none => .error (.keyError name)
    else if c = '{' then .error (.valueError "unexpected brace in field name")
    else pyFormatGo vars (some (c :: acc)) rest
  | none, '{' :: '{' :: rest =>
    (fun p => (String.mk ['{'] ++ p.1, p.2)) <$> pyFormatGo vars none rest
  | none, '}' :: '}' :: rest =>
    (fun p => (String.mk ['}'] ++ p.1, p.2)) <$> pyFormatGo vars none rest
  | none, '{' :: rest => pyFormatGo vars (some []) rest
  | none, '}' :: _ => .error (.valueError "Single brace encountered in format string")
  | none, c :: rest =>
    (fun p => (String.mk [c] ++ p.1, p.2)) <$> pyFormatGo vars none rest

/-- `template.format(**vars)`. -/
def pyFormat (vars : List (String × String)) (cs : List Char) :
    Except FmtError (String × List String) :=
  pyFormatGo vars none cs

/-- A Python value passed as a keyword argument to `format_prompt`: the
code distinguishes strings (escaped) from everything else (left alone;
rendered by `str.format` via `str()`). -/
inductive PyVal where
  | str (s : String)
  | int (n : Int)
deriving Repr, DecidableEq

/-- The escaping step of `format_prompt`:
`value.replace(brace, doubled brace)` for both brace characters.  Both
patterns are single characters, so the two `str.replace` calls amount to
doubling every brace character in one pass. -/
def escape_braces (s : String) : String :=
  String.mk (s.data.foldr
    (fun c acc =>
      if c = '{' then '{' :: '{' :: acc
      else if c = '}' then '}' :: '}' :: acc
      else c :: acc) [])

/-- The `escaped_variables` dict built by `format_prompt` (lines 203-209):
string values get their braces doubled, other values pass through (and
render as their `str()`). -/
def escapeVars (vs : List (String × PyVal)) : List (String × String) :=
  vs.map (fun kv =>
    (kv.1, match kv.2 with
      | .str s => escape_braces s
      | .int n => toString n))

/-- The substitution performed by `format_prompt`:
`template.format(**escaped_variables)`, with its name trace. -/
def format_prompt_trace (template : String) (vs : List (String × PyVal)) :
    Except FmtError (String × List String) :=
  pyFormat (escapeVars vs) template.data

/-- `format_prompt(template, **variables)` (lines 177-215): a `KeyError`
becomes `ValueError("Missing required variable in prompt: ...")`; other
format errors propagate. -/
def format_prompt (template : String) (vs : List (String × PyVal)) :
    Except String String :=
  match format_prompt_trace template vs with
  | .ok p => .ok p.1
  | .error (.keyError name) => .error ("Missing required variable in prompt: " ++ name)
  | .error (.valueError msg) => .error msg

/-- Projection of a format outcome onto the substituted-name trace. -/
def fmtNames : Except FmtError (String × List String) → Except FmtError (List String)
  | .ok p => .ok p.2
  | .error e => .error e

/-- A run of characters with no brace of either kind. -/
def noBraces (cs : List Char) : Prop := ∀ c ∈ cs, c ≠ '{' ∧ c ≠ '}'

end Prompts

namespace Domain

/-! Embedding of `src/domain/models.py` and
`src/domain/email_processor.py`. -/

/-- `models.Attachment`: binary content is a byte list. -/
structure Attachment where
  filename : String
  content_type : String
  size : Nat
  content : Option (List Nat) := none
  url : Option String := none
deriving Repr, DecidableEq

/-- `models.EmailMetadata`. -/
structure EmailMetadata where
  message_id : String
  from_address : String
  to_addresses : List String
  subject : String
  timestamp : String
  bucket_name : String
  object_key : String
deriving Repr, DecidableEq

/-- `models.EmailContent`. -/
structure EmailContent where
  text_body : String
  html_body : String
  attachments : List Attachment := []
deriving Repr, DecidableEq

/-- `EmailContent.body_for_agent`: `text_body or html_body or ""`. -/
def EmailContent.body_for_agent (c : EmailContent) : String :=
  if c.text_body ≠ "" then c.text_body
  else if c.html_body ≠ "" then c.html_body
  else ""

/-- `EmailContent.has_content`: `bool(text_body or html_body)`. -/
def EmailContent.has_content (c : EmailContent) : Bool :=
  !(c.text_body == "") || !(c.html_body == "")

/-- `models.ProcessingResult`. -/
structure ProcessingResult where
  success : Bool
  message_id : String
  metadata : Option EmailMetadata := none
  agent_response : Option String := none
  error_message : Option String := none
deriving Repr, DecidableEq

/-- `ProcessingResult.should_delete_message`: always True. -/
def ProcessingResult.should_delete_message (_ : ProcessingResult) : Bool := true

/-- An SQS record as seen by `process_ses_record`: only the `messageId`
key matters here (the `body` is consumed by the parse stage, whose outcome
is an oracle below). -/
structure SQSRecord where
  messageId : Option String
deriving Repr, DecidableEq

/-- Trace of `EmailProcessor._invoke_agent` together with
`_create_github_issue_prompt` (lines 256-340 of email_processor.py):
the outcome, plus how many times the prompt store was asked to load a
template, how many times `format_prompt` ran, and how many transport
calls `agentcore_invocation.invoke_agent` made.  `loadPrompt`, `formatP`
and `transport` are oracles for the outcomes of
`prompt_service.load_prompt`, `prompt_service.format_prompt` and
`agentcore_invocation.invoke_agent`; errors are their stringified
exceptions. -/
structure AgentStageTrace where
  result : Except String String
  promptLoads : Nat
  promptFormats : Nat
  transportCalls : Nat
deriving Repr, DecidableEq

/-- `EmailProcessor._invoke_agent`: skip on empty content, else load the
template, format it, and invoke the agent. -/
def invokeAgentStage (content : EmailContent) (loadPrompt : Except String String)
    (formatP : String → Except String String)
    (transport : String → Except String String) : AgentStageTrace :=
  if content.has_content = false then
    ⟨.ok "[Skipped] Email body is empty", 0, 0, 0⟩
  else
    match loadPrompt with
    | .error e => ⟨.error e, 1, 0, 0⟩
    | .ok tmpl =>
      match formatP tmpl with
      | .error e => ⟨.error e, 1, 1, 0⟩
      | .ok prompt =>
        match transport prompt with
        | .error e => ⟨.error e, 1, 1, 1⟩
        | .ok resp => ⟨.ok resp, 1, 1, 1⟩

/-- `EmailProcessor.process_ses_record` (lines 42-87): the full pipeline
under the single catch-all boundary.  Stage outcomes are oracles:
`parse` for `_parse_ses_notification` on this record, `fetch` for
`_fetch_email`, `uploadAtts` for the in-place attachment mutation of
`_upload_attachments` (which touches only the attachment list and never
raises), and the three agent-stage oracles.  An `.error e` models a raised
exception whose `str(e)` is `e`. -/
def process_ses_record (record : SQSRecord)
    (parse : Except String EmailMetadata)
    (fetch : EmailMetadata → Except String EmailContent)
    (uploadAtts : List Attachment → List Attachment)
    (loadPrompt : Except String String)
    (formatP : String → Except String String)
    (transport : String → Except String String) : ProcessingResult :=
  let message_id := record.messageId.getD "UNKNOWN"
  match parse with
  | .error e => ⟨false, message_id, none, none, some e⟩
  | .ok meta =>
    match fetch meta with
    | .error e => ⟨false, message_id, none, none, some e⟩
    | .ok content =>
      let content := { content with attachments := uploadAtts content.attachments }
      match (invokeAgentStage content loadPrompt formatP transport).result with
      | .error e => ⟨false, message_id, none, none, some e⟩
      | .ok resp => ⟨true, message_id, some meta, some resp, none⟩

end Domain

namespace EmailSvc

/-! Embedding of `extract_email_body` from `src/services/email.py`.

A parsed MIME message is either multipart (the list of parts yielded by
`msg.walk()`, the container itself excluded since its content type is
`multipart/...` and it carries no disposition or filename) or a single
part.  Part payload decoding is carried by the part itself:
`getContent` is the outcome of `part.get_content()` (`.error` models a
decode exception) and `payload` the result of
`part.get_payload(decode=True)` (`none` models `None`; bytes are decoded
text here, since the fallback decodes them with errors ignored). -/

/-- Byte-level membership of `needle` at the head of `hay`
(Python `in` and `startswith` on strings, made kernel-computable). -/
def headMatches : List Char → List Char → Bool
  | [], _ => true
  | _ :: _, [] => false
  | a :: as, b :: bs => a == b && headMatches as bs

/-- Python `needle in hay` for strings. -/
def isSubList (needle : List Char) : List Char → Bool
  | [] => needle.isEmpty
  | c :: tl => headMatches needle (c :: tl) || isSubList needle tl

/-- Python `needle in hay` for strings. -/
def containsSub (needle hay : String) : Bool := isSubList needle.data hay.data

/-- Python `s.startswith(pre)`. -/
def strStarts (s pre : String) : Bool := headMatches pre.data s.data

/-- One part yielded by `msg.walk()`: content type, the string form of the
`Content-Disposition` header (`""` when absent), the filename (`none`
when absent), and the two decodings. -/
structure MimePart where
  contentType : String
  disposition : String
  filename : Option String
  getContent : Except Unit String
  payload : Option String
deriving Repr, DecidableEq

/-- Python truthiness of `part.get_filename()`. -/
def filenameTruthy (p : MimePart) : Bool :=
  match p.filename with
  | some s => !(s == "")
  | none => false

/-- One captured attachment dict (filename, content_type, size, content). -/
structure AttachmentDict where
  filename : String
  content_type : String
  size : Nat
  content : String
deriving Repr, DecidableEq

/-- The result dict of `extract_email_body`. -/
structure ExtractResult where
  text_body : String
  html_body : String
  attachments : List AttachmentDict
deriving Repr, DecidableEq

/-- The body of the `for part in msg.walk()` loop (lines 45-99 of
email.py), as a fold step over the running result dict. -/
def processPart (res : ExtractResult) (part : MimePart) : ExtractResult :=
  if containsSub "attachment" part.disposition ||
      (containsSub "inline" part.disposition && filenameTruthy part) then
    match part.filename with
    | some fn =>
      if fn ≠ "" then
        let content := part.payload.getD ""
        { res with attachments :=
            res.attachments ++ [⟨fn, part.contentType, content.length, content⟩] }
      else res
    | none => res
  else if filenameTruthy part &&
      (strStarts part.contentType "image/" || strStarts part.contentType "application/") then
    let fn := part.filename.getD ""
    let content := part.payload.getD ""
    { res with attachments :=
        res.attachments ++ [⟨fn, part.contentType, content.length, content⟩] }
  else if part.contentType = "text/plain" && res.text_body == "" then
    match part.getContent with
    | .ok c => { res with text_body := c }
    | .error _ =>
      match part.payload with
      | some pl => if pl ≠ "" then { res with text_body := pl } else res
      | none => res
  else if part.contentType = "text/html" && res.html_body == "" then
    match part.getContent with
    | .ok c => { res with html_body := c }
    | .error _ =>
      match part.payload with
      | some pl => if pl ≠ "" then { res with html_body := pl } else res
      | none => res
  else res

/-- A parsed MIME message. -/
inductive MimeMsg where
  | multipart (parts : List MimePart)
  | single (contentType : String) (content : String)
deriving Repr, DecidableEq

/-- `extract_email_body(email_content)` (lines 18-113 of email.py). -/
def extract_email_body : MimeMsg → ExtractResult
  | .multipart parts => parts.foldl processPart ⟨"", "", []⟩
  | .single ct content =>
    if ct = "text/plain" then ⟨content, "", []⟩
    else if ct = "text/html" then ⟨"", content, []⟩
    else ⟨"", "", []⟩

/-- A body part carrying decoded text `s` with no disposition and no
filename (the shape of an ordinary `text/plain` or `text/html` part). -/
def bodyPart (ct s : String) : MimePart := ⟨ct, "", none, .ok s, some s⟩

/-- The exact guard under which the walk reaches the `text/plain` body
branch for a part: it is not attachment-classified by disposition, and
its content type is `text/plain` (the filename-fallback branch cannot
match a `text/...` content type, so it never intercepts such a part). -/
def isBodyTextPlain (q : MimePart) : Bool :=
  !(containsSub "attachment" q.disposition ||
    (containsSub "inline" q.disposition && filenameTruthy q)) &&
  (q.contentType == "text/plain")

/-- The exact guard under which the walk reaches the `text/html` body
branch for a part (the `text/plain` branch never intercepts it, its
content type differing). -/
def isBodyHtml (q : MimePart) : Bool :=
  !(containsSub "attachment" q.disposition ||
    (containsSub "inline" q.disposition && filenameTruthy q)) &&
  (q.contentType == "text/html")

/-- The text a body branch stores for a part it captures:
`part.get_content()` when it succeeds, else the best-effort payload
decode, else nothing (the empty string, which leaves the slot open). -/
def capturedContent (q : MimePart) : String :=
  match q.getContent with
  | .ok c => c
  | .error _ =>
    match q.payload with
    | some pl => pl
    | none => ""

end EmailSvc

namespace Attach

/-! Embedding of `src/services/attachment.py`.  Binary content is a byte
list; the `put` oracle is `s3_client.put_object` keyed by the object key,
`false` modelling a raised `ClientError` (caught, upload reported
failed). -/

/-- The module configuration read from the environment:
`ATTACHMENTS_S3_BUCKET` and `ATTACHMENTS_CLOUDFRONT_DOMAIN` default to
`""`, `ENVIRONMENT` to `"dev"`, and `MAX_FILE_SIZE_BYTES` is
`ATTACHMENT_MAX_SIZE_MB * 1024 * 1024` (default 20 MiB). -/
structure Config where
  bucket : String
  cloudfront : String
  environment : String
  maxFileSizeBytes : Nat
deriving Repr, DecidableEq

/-- `is_configured()`: both bucket and CloudFront domain non-empty. -/
def is_configured (cfg : Config) : Bool :=
  !(cfg.bucket == "") && !(cfg.cloudfront == "")

/-- `_sanitize_for_s3_key(value)`: strip surrounding angle brackets,
replace `/ \ # ? & %` with `_`, remove control characters. -/
def sanitize_for_s3_key (value : String) : String :=
  let isAngle := fun c => c == '<' || c == '>'
  let stripped := ((value.data.dropWhile (isAngle · = true)).reverse.dropWhile
    (isAngle · = true)).reverse
  let replaced := stripped.map (fun c =>
    if c == '/' || c == '\\' || c == '#' || c == '?' || c == '&' || c == '%' then '_' else c)
  String.mk (replaced.filter (fun c => !(c.toNat ≤ 0x1f || c.toNat == 0x7f)))

/-- `upload_attachment(filename, content, content_type, message_id)`
(lines 52-111): returns the CloudFront URL on success, `none` on
skip/failure, together with the number of `put_object` calls made. -/
def upload_attachment (cfg : Config) (put : String → Bool)
    (filename : String) (content : List Nat) (content_type : String)
    (message_id : String) : Option String × Nat :=
  if is_configured cfg = false then (none, 0)
  else if content.length > cfg.maxFileSizeBytes then (none, 0)
  else
    let key := "attachments/" ++ cfg.environment ++ "/" ++
      sanitize_for_s3_key message_id ++ "/" ++ sanitize_for_s3_key filename
    if put key then (some ("https://" ++ cfg.cloudfront ++ "/" ++ key), 1)
    else (none, 1)

end Attach

namespace Domain

/-- `EmailProcessor._upload_attachments` (lines 208-254 of
email_processor.py): for each attachment with content, call
`upload_attachment`; on a returned URL set `url` and clear `content`;
otherwise leave the attachment untouched.  A no-op when the service is
not configured. -/
def upload_attachments (cfg : Attach.Config) (put : String → Bool)
    (message_id : String) (atts : List Attachment) : List Attachment :=
  if Attach.is_configured cfg = false then atts
  else atts.map (fun a =>
    match a.content with
    | none => a
    | some content =>
      match (Attach.upload_attachment cfg put a.filename content
          a.content_type message_id).1 with
      | some url => { a with url := some url, content := none }
      | none => a)

end Domain

namespace Handler

/-! Embedding of `lambda_handler` from `src/sqs_email_handler.py`.

The JSON value already produced by `json.loads` on the record body is a
small inductive; a record whose body is not valid JSON carries the
decode error directly.  The unwrap of an SNS envelope needs a second
`json.loads` on the inner message string, given as the oracle
`innerParse`.  Everything after a successful S3 fetch — MIME extraction,
the agent invocation (whose every exception is caught and turned into a
sentinel response string by the handler itself), logging — cannot raise,
so the per-record outcome is determined by the parse/validate/fetch
steps. -/

/-- A JSON value (the subset these notifications use). -/
inductive JVal where
  | str (s : String)
  | obj (fields : List (String × JVal))
  | arr (xs : List JVal)
  | null

/-- `dict.get(k)` on a JSON object (`none` on non-objects, as these
models never call `.get` on one). -/
def jGet : JVal → String → Option JVal
  | .obj fields, k => jFind fields k
  | _, _ => none
where
  jFind : List (String × JVal) → String → Option JVal
    | [], _ => none
    | (k2, v) :: rest, k => if k2 = k then some v else jFind rest k

/-- `sqs_body.get('Type') == 'Notification' and 'Message' in sqs_body`. -/
def isNotificationWrapper (j : JVal) : Bool :=
  (match jGet j "Type" with
    | some (.str t) => t == "Notification"
    | _ => false) &&
  (jGet j "Message").isSome

/-- One SQS record as the handler sees it: the `messageId` value and the
outcome of `json.loads(record['body'])`. -/
structure HRecord where
  messageId : Option String
  body : Except String JVal

/-- Steps 1-6 of the per-record `try` block (lines 45-183 of
sqs_email_handler.py): JSON parse, SNS unwrap, structure validation, S3
location extraction, S3 fetch.  The remaining steps (7-8) catch all
their own exceptions and cannot fail the record. -/
def processRecord (r : HRecord) (innerParse : String → Except String JVal)
    (fetch : String → String → Except String String) : Except String Unit :=
  match r.body with
  | .error e => .error e
  | .ok sqs_body =>
    let sesE : Except String JVal :=
      if isNotificationWrapper sqs_body then
        match jGet sqs_body "Message" with
        | some (.str s) => innerParse s
        | _ => .error "the JSON object must be str, bytes or bytearray"
      else .ok sqs_body
    match sesE with
    | .error e => .error e
    | .ok ses =>
      if ((jGet ses "mail").isSome && (jGet ses "receipt").isSome) = false then
        .error "SES notification missing mail or receipt fields"
      else
        let receipt := (jGet ses "receipt").getD .null
        let action := (jGet receipt "action").getD (.obj [])
        match jGet action "bucketName", jGet action "objectKey" with
        | some (.str b), some (.str k) =>
          if b == "" || k == "" then .error "Missing S3 location in SES notification"
          else
            match fetch b k with
            | .error e => .error e
            | .ok _ => .ok ()
        | _, _ => .error "Missing S3 location in SES notification"

/-- `lambda_handler(event, context)` (lines 25-194): iterate the records,
catch any exception per record, and collect the `itemIdentifier` values
of the returned `batchItemFailures` list. -/
def lambda_handler (records : List HRecord)
    (innerParse : String → Except String JVal)
    (fetch : String → String → Except String String) : List String :=
  records.foldl (fun fails r =>
    match processRecord r innerParse fetch with
    | .ok _ => fails
    | .error _ => fails ++ [r.messageId.getD "UNKNOWN"]) []

end Handler

/-- C1: the claim says a single call to `invoke_agent` makes at most one
attempt against the agent transport with no internal sleep or backoff, and
that a throttling error is surfaced immediately.  The code violates this:
with every attempt throttled, `invoke_agent` makes 3 transport attempts,
sleeps 0.1 s and 0.2 s in between, and only then raises
`ThrottlingException` — matching its own retry loop but contradicting the
repository's tests, which assert `call_count == 1` on throttling. -/
theorem c1_invoke_agent_retries_internally :
    (AgentCore.invoke_agent "Test prompt" none "u" AgentCore.alwaysThrottled).attempts = 3 ∧
    (AgentCore.invoke_agent "Test prompt" none "u" AgentCore.alwaysThrottled).sleepsTenths =
      [1, 2] ∧
    (AgentCore.invoke_agent "Test prompt" none "u" AgentCore.alwaysThrottled).result =
      some (.error (.throttling
        ("Request throttled by Bedrock service after 3 attempts. " ++
         "Retry after a longer delay. Error: Throttled"))) := by
  decide

/-- C9: an explicitly provided session id shorter than 33 characters makes
`invoke_agent` raise a `ValidationException` before any transport attempt,
and a generated session id (the 36-character canonical UUID4 string
prefixed with "session-") always satisfies the 33-character floor. -/
theorem c9_short_session_id_rejected_before_transport
    (prompt : String) (sid : String) (h : sid.length < 33)
    (u : String) (hu : u.length = 36)
    (transport : Nat → Except AgentCore.ClientError String) :
    ((AgentCore.invoke_agent prompt (some sid) u transport).attempts = 0 ∧
      ∃ m, (AgentCore.invoke_agent prompt (some sid) u transport).result =
        some (.error (.validation m))) ∧
    33 ≤ (AgentCore.generate_session_id u).length := by
  constructor
  · unfold AgentCore.invoke_agent
    by_cases hp : prompt = ""
    · simp [hp]
    · simp [hp, h]
  · simp [AgentCore.generate_session_id, hu]

/-- C5 counterexample: with a remote override configured but failing
(falling back to the packaged file), a reload after TTL expiry performs
two fetch operations — one S3 `get_object` and one filesystem `open` —
not exactly one, refuting the claim as stated. -/
theorem c5_counterexample_two_fetches_after_expiry :
    let s3f : String → Option String := fun _ => none
    let fsf : String → Option String := fun _ => some "local template"
    let call1 := Prompts.load_prompt (some "prompt-bucket") 300 s3f fsf []
      "github_issue.txt" true 0
    let call2 := Prompts.load_prompt (some "prompt-bucket") 300 s3f fsf call1.cache
      "github_issue.txt" true 300
    call1.result = .ok "local template" ∧
    call2.s3Calls + call2.fsCalls = 2 ∧
    ¬ call2.s3Calls + call2.fsCalls = 1 := by
  decide

/-- C5 amended: within the TTL a cached load returns the cached content
with zero S3 or filesystem fetches and an unchanged cache; after TTL
expiry the entry is refetched — one fetch when the first attempted source
(the S3 override when a bucket is configured, else the local directory)
succeeds, two when a configured S3 fetch fails and the local file is used —
and the newly fetched content overwrites the cache entry with the current
timestamp. -/
theorem c5_cache_ttl_behaviour
    (bucket : Option String) (ttl : Nat)
    (s3Fetch fsFetch : String → Option String)
    (cache : List (String × String × Nat)) (name : String)
    (now content : _) (t : Nat)
    (hhit : Prompts.cacheLookup cache ("prompt:" ++ name) = some (content, t)) :
    (now - t < ttl →
      Prompts.load_prompt bucket ttl s3Fetch fsFetch cache name true now =
        ⟨.ok content, cache, 0, 0⟩) ∧
    (¬ now - t < ttl → ∀ b c, bucket = some b → s3Fetch name = some c →
      Prompts.load_prompt bucket ttl s3Fetch fsFetch cache name true now =
        ⟨.ok c, Prompts.cacheInsert cache ("prompt:" ++ name) c now, 1, 0⟩) ∧
    (¬ now - t < ttl → ∀ c, bucket = none → fsFetch name = some c →
      Prompts.load_prompt bucket ttl s3Fetch fsFetch cache name true now =
        ⟨.ok c, Prompts.cacheInsert cache ("prompt:" ++ name) c now, 0, 1⟩) ∧
    (¬ now - t < ttl → ∀ b c, bucket = some b → s3Fetch name = none →
      fsFetch name = some c →
      Prompts.load_prompt bucket ttl s3Fetch fsFetch cache name true now =
        ⟨.ok c, Prompts.cacheInsert cache ("prompt:" ++ name) c now, 1, 1⟩) := by
  refine ⟨?_, ?_, ?_, ?_⟩
  · intro hlt
    simp [Prompts.load_prompt, hhit, hlt]
  · intro hge b c hb hs3
    simp [Prompts.load_prompt, hhit, hge, Prompts.loadFresh, hb, hs3]
  · intro hge c hb hfs
    simp [Prompts.load_prompt, hhit, hge, Prompts.loadFresh, hb, hfs]
  · intro hge b c hb hs3 hfs
    simp [Prompts.load_prompt, hhit, hge, Prompts.loadFresh, hb, hs3, hfs]

/-- Witness for C5 at a concrete input: a warm cache entry of age 10 s
under a 300 s TTL is served with zero fetches. -/
theorem c5_cache_ttl_behaviour_witness :
    Prompts.cacheLookup [("prompt:github_issue.txt", "tmpl", 5)]
        ("prompt:" ++ "github_issue.txt") = some ("tmpl", 5) ∧
    (15 : Nat) - 5 < 300 ∧
    Prompts.load_prompt none 300 (fun _ => none) (fun _ => some "tmpl")
        [("prompt:github_issue.txt", "tmpl", 5)] "github_issue.txt" true 15 =
      ⟨.ok "tmpl", [("prompt:github_issue.txt", "tmpl", 5)], 0, 0⟩ :=
  ⟨by decide, by decide,
    (c5_cache_ttl_behaviour none 300 (fun _ => none) (fun _ => some "tmpl")
        [("prompt:github_issue.txt", "tmpl", 5)] "github_issue.txt" 15 "tmpl" 5
        (by decide)).1 (by decide)⟩

/-- C3: `process_ses_record` is total (embedded as a total function into
`ProcessingResult`): whichever stage raises first, the exception is
converted into a failure result carrying its stringified message, and a
run with no exception yields `success = true` with `agent_response` set. -/
theorem c3_process_ses_record_total_error_boundary
    (record : Domain.SQSRecord)
    (parse : Except String Domain.EmailMetadata)
    (fetch : Domain.EmailMetadata → Except String Domain.EmailContent)
    (uploadAtts : List Domain.Attachment → List Domain.Attachment)
    (loadPrompt : Except String String)
    (formatP : String → Except String String)
    (transport : String → Except String String) :
    let mid := record.messageId.getD "UNKNOWN"
    let run := Domain.process_ses_record record parse fetch uploadAtts loadPrompt formatP transport
    (∀ e, parse = .error e → run = ⟨false, mid, none, none, some e⟩) ∧
    (∀ meta e, parse = .ok meta → fetch meta = .error e →
      run = ⟨false, mid, none, none, some e⟩) ∧
    (∀ meta content e, parse = .ok meta → fetch meta = .ok content →
      (Domain.invokeAgentStage
          { content with attachments := uploadAtts content.attachments }
          loadPrompt formatP transport).result = .error e →
      run = ⟨false, mid, none, none, some e⟩) ∧
    (∀ meta content resp, parse = .ok meta → fetch meta = .ok content →
      (Domain.invokeAgentStage
          { content with attachments := uploadAtts content.attachments }
          loadPrompt formatP transport).result = .ok resp →
      run = ⟨true, mid, some meta, some resp, none⟩) := by
  refine ⟨?_, ?_, ?_, ?_⟩
  · intro e he; simp [Domain.process_ses_record, he]
  · intro meta e hp hf; simp [Domain.process_ses_record, hp, hf]
  · intro meta content e hp hf hs; simp [Domain.process_ses_record, hp, hf, hs]
  · intro meta content resp hp hf hs; simp [Domain.process_ses_record, hp, hf, hs]

/-- Witness for C3 at concrete inputs: a failing fetch stage produces the
failure result with the stringified cause. -/
theorem c3_process_ses_record_total_error_boundary_witness :
    Domain.process_ses_record ⟨some "m-1"⟩
      (.ok ⟨"m-1", "a@b", ["c@d"], "S", "T", "bkt", "key"⟩)
      (fun _ => .error "Email file not found in S3: key")
      id (.ok "tmpl") (fun t => .ok t) (fun _ => .ok "resp") =
      ⟨false, "m-1", none, none, some "Email file not found in S3: key"⟩ :=
  (c3_process_ses_record_total_error_boundary ⟨some "m-1"⟩
      (.ok ⟨"m-1", "a@b", ["c@d"], "S", "T", "bkt", "key"⟩)
      (fun _ => .error "Email file not found in S3: key")
      id (.ok "tmpl") (fun t => .ok t) (fun _ => .ok "resp")).2.1
    ⟨"m-1", "a@b", ["c@d"], "S", "T", "bkt", "key"⟩
    "Email file not found in S3: key" rfl rfl

/-- C4: when the extracted content has empty text and HTML bodies, the
agent stage returns the skip sentinel without loading, formatting or
sending any prompt, and the whole pipeline succeeds with that sentinel
as the agent response. -/
theorem c4_empty_body_skips_agent
    (record : Domain.SQSRecord)
    (parse : Except String Domain.EmailMetadata)
    (fetch : Domain.EmailMetadata → Except String Domain.EmailContent)
    (uploadAtts : List Domain.Attachment → List Domain.Attachment)
    (loadPrompt : Except String String)
    (formatP : String → Except String String)
    (transport : String → Except String String)
    (meta : Domain.EmailMetadata) (content : Domain.EmailContent)
    (hp : parse = .ok meta) (hf : fetch meta = .ok content)
    (htext : content.text_body = "") (hhtml : content.html_body = "") :
    Domain.invokeAgentStage
        { content with attachments := uploadAtts content.attachments }
        loadPrompt formatP transport =
      ⟨.ok "[Skipped] Email body is empty", 0, 0, 0⟩ ∧
    Domain.process_ses_record record parse fetch uploadAtts loadPrompt formatP transport =
      ⟨true, record.messageId.getD "UNKNOWN", some meta,
        some "[Skipped] Email body is empty", none⟩ := by
  have hstage : Domain.invokeAgentStage
      { content with attachments := uploadAtts content.attachments }
      loadPrompt formatP transport =
      ⟨.ok "[Skipped] Email body is empty", 0, 0, 0⟩ := by
    simp [Domain.invokeAgentStage, Domain.EmailContent.has_content, htext, hhtml]
  refine ⟨hstage, ?_⟩
  simp [Domain.process_ses_record, hp, hf, hstage]

/-- Witness for C4 at concrete inputs: an empty-bodied email never reaches
the prompt store or the transport. -/
theorem c4_empty_body_skips_agent_witness :
    Domain.process_ses_record ⟨some "m-2"⟩
      (.ok ⟨"m-2", "a@b", [], "S", "T", "bkt", "key"⟩)
      (fun _ => .ok ⟨"", "", []⟩) id (.ok "tmpl") (fun t => .ok t)
      (fun _ => .ok "resp") =
      ⟨true, "m-2", some ⟨"m-2", "a@b", [], "S", "T", "bkt", "key"⟩,
        some "[Skipped] Email body is empty", none⟩ :=
  (c4_empty_body_skips_agent ⟨some "m-2"⟩
      (.ok ⟨"m-2", "a@b", [], "S", "T", "bkt", "key"⟩)
      (fun _ => .ok ⟨"", "", []⟩) id (.ok "tmpl") (fun t => .ok t)
      (fun _ => .ok "resp")
      ⟨"m-2", "a@b", [], "S", "T", "bkt", "key"⟩ ⟨"", "", []⟩
      rfl rfl rfl rfl).2

/-- C10: the `message_id` of the result of `process_ses_record` is the
record's `messageId` when present and the literal "UNKNOWN" otherwise, on
every path (success or failure). -/
theorem c10_result_message_id
    (record : Domain.SQSRecord)
    (parse : Except String Domain.EmailMetadata)
    (fetch : Domain.EmailMetadata → Except String Domain.EmailContent)
    (uploadAtts : List Domain.Attachment → List Domain.Attachment)
    (loadPrompt : Except String String)
    (formatP : String → Except String String)
    (transport : String → Except String String) :
    (Domain.process_ses_record record parse fetch uploadAtts loadPrompt
        formatP transport).message_id =
      match record.messageId with
      | some m => m
      | none => "UNKNOWN" := by
  have hmid : (Domain.process_ses_record record parse fetch uploadAtts loadPrompt
      formatP transport).message_id = record.messageId.getD "UNKNOWN" := by
    unfold Domain.process_ses_record
    cases parse with
    | error e => rfl
    | ok meta =>
      cases hf : fetch meta with
      | error e => simp [hf]
      | ok content =>
        cases hs : (Domain.invokeAgentStage
            { content with attachments := uploadAtts content.attachments }
            loadPrompt formatP transport).result <;> simp [hf, hs]
  rw [hmid]; cases record.messageId <;> rfl

/-- Witness for C9 at a concrete input: session id "short" (5 characters)
and a 36-character UUID string. -/
theorem c9_short_session_id_rejected_before_transport_witness :
    ("short" : String).length < 33 ∧
    ("123e4567-e89b-12d3-a456-426614174000" : String).length = 36 ∧
    (((AgentCore.invoke_agent "Test prompt" (some "short")
        "123e4567-e89b-12d3-a456-426614174000" AgentCore.alwaysThrottled).attempts = 0 ∧
      ∃ m, (AgentCore.invoke_agent "Test prompt" (some "short")
        "123e4567-e89b-12d3-a456-426614174000" AgentCore.alwaysThrottled).result =
          some (.error (.validation m))) ∧
    33 ≤ (AgentCore.generate_session_id "123e4567-e89b-12d3-a456-426614174000").length) :=
  ⟨by decide, by decide,
    c9_short_session_id_rejected_before_transport "Test prompt" "short" (by decide)
      "123e4567-e89b-12d3-a456-426614174000" (by decide) AgentCore.alwaysThrottled⟩


/-- C2: the claim (and the repository's own tests) say the handler's
returned list of not-successfully-processed record identifiers is always
empty.  The code violates this: a record whose body lacks the `mail` and
`receipt` sections — the exact input of the repository's
`test_lambda_handler_invalid_ses_notification` — is appended to
`batchItemFailures` instead of being acknowledged. -/
theorem c2_handler_reports_batch_item_failures :
    Handler.lambda_handler
        [⟨some "test-message-id", .ok (.obj [("invalid", .str "data")])⟩]
        (fun _ => .error "inner parse unused") (fun _ _ => .ok "raw email") =
      ["test-message-id"] ∧
    Handler.lambda_handler
        [⟨some "test-message-id", .ok (.obj [("invalid", .str "data")])⟩]
        (fun _ => .error "inner parse unused") (fun _ _ => .ok "raw email") ≠ [] := by
  constructor
  · rfl
  · decide

/-- C7: an attachment whose byte content strictly exceeds the configured
ceiling is never uploaded (`put_object` is not called) and its `url`
remains unset, while one whose size is exactly the ceiling is uploaded and
gets the CloudFront URL when the put succeeds. -/
theorem c7_attachment_size_ceiling
    (cfg : Attach.Config) (put : String → Bool)
    (filename content_type message_id : String) (content : List Nat) :
    (content.length > cfg.maxFileSizeBytes →
      Attach.upload_attachment cfg put filename content content_type message_id =
        (none, 0)) ∧
    (∀ a : Domain.Attachment, a.content = some content →
      content.length > cfg.maxFileSizeBytes →
      Domain.upload_attachments cfg put message_id [a] = [a]) ∧
    (Attach.is_configured cfg = true →
      content.length = cfg.maxFileSizeBytes →
      ∀ url, url = "https://" ++ cfg.cloudfront ++ "/" ++
        ("attachments/" ++ cfg.environment ++ "/" ++
          Attach.sanitize_for_s3_key message_id ++ "/" ++
          Attach.sanitize_for_s3_key filename) →
      put ("attachments/" ++ cfg.environment ++ "/" ++
          Attach.sanitize_for_s3_key message_id ++ "/" ++
          Attach.sanitize_for_s3_key filename) = true →
      Attach.upload_attachment cfg put filename content content_type message_id =
        (some url, 1)) := by
  refine ⟨?_, ?_, ?_⟩
  · intro hbig
    simp only [Attach.upload_attachment]
    by_cases hc : Attach.is_configured cfg = false
    · simp [hc]
    · simp [hc, hbig]
  · intro a hcont hbig
    simp only [Domain.upload_attachments]
    by_cases hc : Attach.is_configured cfg = false
    · simp [hc]
    · have hup : (Attach.upload_attachment cfg put a.filename content
          a.content_type message_id).1 = none := by
        simp only [Attach.upload_attachment]
        simp [hc, hbig]
      simp [hc, hcont, hup]
  · intro hconf hlen url hurl hput
    have hnotbig : ¬ content.length > cfg.maxFileSizeBytes := by omega
    simp [Attach.upload_attachment, hconf, hnotbig, hput, hurl]

/-- Witness for C7 at concrete inputs: a 6-byte attachment over a 5-byte
ceiling is skipped with zero puts; a 5-byte attachment at the ceiling is
uploaded and gets its URL. -/
theorem c7_attachment_size_ceiling_witness :
    ((([0, 0, 0, 0, 0, 0] : List Nat).length > 5 ∧
      Attach.upload_attachment ⟨"bkt", "cdn.example.com", "dev", 5⟩ (fun _ => true)
        "shot.png" [0, 0, 0, 0, 0, 0] "image/png" "msg-1" = (none, 0)) ∧
     Attach.upload_attachment ⟨"bkt", "cdn.example.com", "dev", 5⟩ (fun _ => true)
        "shot.png" [0, 0, 0, 0, 0] "image/png" "msg-1" =
      (some ("https://" ++ "cdn.example.com" ++ "/" ++
        ("attachments/" ++ "dev" ++ "/" ++
          Attach.sanitize_for_s3_key "msg-1" ++ "/" ++
          Attach.sanitize_for_s3_key "shot.png")), 1)) :=
  ⟨⟨by decide,
    (c7_attachment_size_ceiling ⟨"bkt", "cdn.example.com", "dev", 5⟩ (fun _ => true)
      "shot.png" "image/png" "msg-1" [0, 0, 0, 0, 0, 0]).1 (by decide)⟩,
    (c7_attachment_size_ceiling ⟨"bkt", "cdn.example.com", "dev", 5⟩ (fun _ => true)
      "shot.png" "image/png" "msg-1" [0, 0, 0, 0, 0]).2.2 (by decide) (by decide)
      _ rfl (by decide)⟩

namespace EmailSvc

/-- A part that is not a body `text/plain` part, or whose captured
content is empty, leaves an empty `text_body` empty. -/
theorem processPart_text_stays_empty (res : ExtractResult) (q : MimePart)
    (hres : res.text_body = "")
    (hq : isBodyTextPlain q = false ∨ capturedContent q = "") :
    (processPart res q).text_body = "" := by
  unfold processPart
  repeat' split
  all_goals first | (exact hres) | simp_all [isBodyTextPlain, capturedContent]

/-- A part that is not a body `text/html` part, or whose captured
content is empty, leaves an empty `html_body` empty. -/
theorem processPart_html_stays_empty (res : ExtractResult) (q : MimePart)
    (hres : res.html_body = "")
    (hq : isBodyHtml q = false ∨ capturedContent q = "") :
    (processPart res q).html_body = "" := by
  unfold processPart
  repeat' split
  all_goals first | (exact hres) | simp_all [isBodyHtml, capturedContent]

/-- Once `text_body` is non-empty, no later part changes it. -/
theorem processPart_keeps_text (res : ExtractResult) (q : MimePart)
    (h : res.text_body ≠ "") :
    (processPart res q).text_body = res.text_body := by
  unfold processPart
  repeat' split
  all_goals first | rfl | simp_all

/-- Once `html_body` is non-empty, no later part changes it. -/
theorem processPart_keeps_html (res : ExtractResult) (q : MimePart)
    (h : res.html_body ≠ "") :
    (processPart res q).html_body = res.html_body := by
  unfold processPart
  repeat' split
  all_goals first | rfl | simp_all

/-- A body `text/plain` part whose captured content is the non-empty `c`
sets `text_body` to `c` when none has been captured yet — whether
`get_content()` succeeded or the payload fallback was used. -/
theorem processPart_captures_text (res : ExtractResult) (p : MimePart) (c : String)
    (hres : res.text_body = "")
    (hbody : isBodyTextPlain p = true)
    (hcap : capturedContent p = c) (hne : c ≠ "") :
    (processPart res p).text_body = c := by
  have h1 : (containsSub "attachment" p.disposition ||
      (containsSub "inline" p.disposition && filenameTruthy p)) = false := by
    cases hB : (containsSub "attachment" p.disposition ||
        (containsSub "inline" p.disposition && filenameTruthy p)) with
    | false => rfl
    | true => simp [isBodyTextPlain, hB] at hbody
  have h2 : p.contentType = "text/plain" := by
    simp [isBodyTextPlain] at hbody
    exact hbody.2
  unfold processPart
  cases hg : p.getContent with
  | ok c0 =>
    have hc0 : c0 = c := by simpa [capturedContent, hg] using hcap
    subst hc0
    simp [h1, h2, hres, hg, strStarts, headMatches]
  | error e =>
    cases hp : p.payload with
    | some pl =>
      have hpl : pl = c := by simpa [capturedContent, hg, hp] using hcap
      subst hpl
      simp [h1, h2, hres, hg, hp, hne, strStarts, headMatches]
    | none =>
      exact absurd (by simpa [capturedContent, hg, hp] using hcap.symm) hne

/-- A body `text/html` part whose captured content is the non-empty `c`
sets `html_body` to `c` when none has been captured yet. -/
theorem processPart_captures_html (res : ExtractResult) (p : MimePart) (c : String)
    (hres : res.html_body = "")
    (hbody : isBodyHtml p = true)
    (hcap : capturedContent p = c) (hne : c ≠ "") :
    (processPart res p).html_body = c := by
  have h1 : (containsSub "attachment" p.disposition ||
      (containsSub "inline" p.disposition && filenameTruthy p)) = false := by
    cases hB : (containsSub "attachment" p.disposition ||
        (containsSub "inline" p.disposition && filenameTruthy p)) with
    | false => rfl
    | true => simp [isBodyHtml, hB] at hbody
  have h2 : p.contentType = "text/html" := by
    simp [isBodyHtml] at hbody
    exact hbody.2
  unfold processPart
  cases hg : p.getContent with
  | ok c0 =>
    have hc0 : c0 = c := by simpa [capturedContent, hg] using hcap
    subst hc0
    simp [h1, h2, hres, hg, strStarts, headMatches]
  | error e =>
    cases hp : p.payload with
    | some pl =>
      have hpl : pl = c := by simpa [capturedContent, hg, hp] using hcap
      subst hpl
      simp [h1, h2, hres, hg, hp, hne, strStarts, headMatches]
    | none =>
      exact absurd (by simpa [capturedContent, hg, hp] using hcap.symm) hne

/-- Folding over parts none of which is a body `text/plain` part with
non-empty captured content keeps `text_body` empty. -/
theorem foldl_text_stays_empty (pre : List MimePart)
    (hpre : ∀ q ∈ pre, isBodyTextPlain q = false ∨ capturedContent q = "")
    (res : ExtractResult) (hres : res.text_body = "") :
    (pre.foldl processPart res).text_body = "" := by
  induction pre generalizing res with
  | nil => exact hres
  | cons q tl ih =>
    simp only [List.foldl_cons]
    exact ih (fun x hx => hpre x (List.mem_cons_of_mem q hx)) _
      (processPart_text_stays_empty res q hres (hpre q (List.mem_cons_self q tl)))

/-- Folding over parts none of which is a body `text/html` part with
non-empty captured content keeps `html_body` empty. -/
theorem foldl_html_stays_empty (pre : List MimePart)
    (hpre : ∀ q ∈ pre, isBodyHtml q = false ∨ capturedContent q = "")
    (res : ExtractResult) (hres : res.html_body = "") :
    (pre.foldl processPart res).html_body = "" := by
  induction pre generalizing res with
  | nil => exact hres
  | cons q tl ih =>
    simp only [List.foldl_cons]
    exact ih (fun x hx => hpre x (List.mem_cons_of_mem q hx)) _
      (processPart_html_stays_empty res q hres (hpre q (List.mem_cons_self q tl)))

/-- Folding preserves an already non-empty `text_body`. -/
theorem foldl_keeps_text (post : List MimePart) (res : ExtractResult)
    (h : res.text_body ≠ "") :
    (post.foldl processPart res).text_body = res.text_body := by
  induction post generalizing res with
  | nil => rfl
  | cons q tl ih =>
    simp only [List.foldl_cons]
    rw [ih (processPart res q) (by rw [processPart_keeps_text res q h]; exact h)]
    exact processPart_keeps_text res q h

/-- Folding preserves an already non-empty `html_body`. -/
theorem foldl_keeps_html (post : List MimePart) (res : ExtractResult)
    (h : res.html_body ≠ "") :
    (post.foldl processPart res).html_body = res.html_body := by
  induction post generalizing res with
  | nil => rfl
  | cons q tl ih =>
    simp only [List.foldl_cons]
    rw [ih (processPart res q) (by rw [processPart_keeps_html res q h]; exact h)]
    exact processPart_keeps_html res q h

end EmailSvc

/-- C8 counterexample: in a multipart message whose first `text/plain`
part decodes to the empty string, the walk captures the second
`text/plain` part — the Python guard is `not result['text_body']`, which
is true again after storing an empty first body — so `text_body` is not
the decoded content of the first `text/plain` part. -/
theorem c8_counterexample_empty_first_part :
    EmailSvc.extract_email_body (.multipart
        [EmailSvc.bodyPart "text/plain" "",
         EmailSvc.bodyPart "text/plain" "second part text"]) =
      ⟨"second part text", "", []⟩ ∧
    ("second part text" : String) ≠ "" := by
  constructor
  · rfl
  · decide

/-- C8 amended: in every multipart message, the first body `text/plain`
part whose captured content is non-empty becomes `text_body` — parts
before it may be anything that captures no text: attachments, other
content types, or `text/plain` parts whose captured content is empty —
and every later part is ignored; likewise for `text/html` and
`html_body`. -/
theorem c8_first_nonempty_part_wins :
    (∀ (pre post : List EmailSvc.MimePart) (p : EmailSvc.MimePart) (c : String),
      (∀ q ∈ pre, EmailSvc.isBodyTextPlain q = false ∨ EmailSvc.capturedContent q = "") →
      EmailSvc.isBodyTextPlain p = true →
      EmailSvc.capturedContent p = c → c ≠ "" →
      (EmailSvc.extract_email_body (.multipart (pre ++ p :: post))).text_body = c) ∧
    (∀ (pre post : List EmailSvc.MimePart) (p : EmailSvc.MimePart) (c : String),
      (∀ q ∈ pre, EmailSvc.isBodyHtml q = false ∨ EmailSvc.capturedContent q = "") →
      EmailSvc.isBodyHtml p = true →
      EmailSvc.capturedContent p = c → c ≠ "" →
      (EmailSvc.extract_email_body (.multipart (pre ++ p :: post))).html_body = c) := by
  constructor
  · intro pre post p c hpre hbody hcap hne
    simp only [EmailSvc.extract_email_body]
    rw [List.foldl_append, List.foldl_cons]
    have h0 : (pre.foldl EmailSvc.processPart ⟨"", "", []⟩).text_body = "" :=
      EmailSvc.foldl_text_stays_empty pre hpre ⟨"", "", []⟩ rfl
    have hset : (EmailSvc.processPart
        (pre.foldl EmailSvc.processPart ⟨"", "", []⟩) p).text_body = c :=
      EmailSvc.processPart_captures_text _ p c h0 hbody hcap hne
    rw [EmailSvc.foldl_keeps_text post _ (by rw [hset]; exact hne)]
    exact hset
  · intro pre post p c hpre hbody hcap hne
    simp only [EmailSvc.extract_email_body]
    rw [List.foldl_append, List.foldl_cons]
    have h0 : (pre.foldl EmailSvc.processPart ⟨"", "", []⟩).html_body = "" :=
      EmailSvc.foldl_html_stays_empty pre hpre ⟨"", "", []⟩ rfl
    have hset : (EmailSvc.processPart
        (pre.foldl EmailSvc.processPart ⟨"", "", []⟩) p).html_body = c :=
      EmailSvc.processPart_captures_html _ p c h0 hbody hcap hne
    rw [EmailSvc.foldl_keeps_html post _ (by rw [hset]; exact hne)]
    exact hset

/-- Witness for C8 at a concrete input covering the re-opened-slot case:
an earlier `text/plain` part decoding to the empty string is passed over,
the next non-empty `text/plain` part is captured, and a later one is
ignored. -/
theorem c8_first_nonempty_part_wins_witness :
    (EmailSvc.extract_email_body (.multipart
        ([EmailSvc.bodyPart "text/plain" ""] ++
          EmailSvc.bodyPart "text/plain" "real body" ::
          [EmailSvc.bodyPart "text/plain" "later part"]))).text_body =
      "real body" :=
  c8_first_nonempty_part_wins.1 [EmailSvc.bodyPart "text/plain" ""]
    [EmailSvc.bodyPart "text/plain" "later part"]
    (EmailSvc.bodyPart "text/plain" "real body") "real body"
    (by
      intro q hq
      simp only [List.mem_singleton] at hq
      subst hq
      exact Or.inr rfl)
    (by decide) rfl (by decide)

/-! Helper lemmas about the `str.format` embedding, used by C6. -/

namespace Prompts

theorem pyFormatGo_cons_lit (vars : List (String × String)) (c : Char) (rest : List Char)
    (h1 : c ≠ '{') (h2 : c ≠ '}') :
    pyFormatGo vars none (c :: rest) =
      (fun p => (String.mk [c] ++ p.1, p.2)) <$> pyFormatGo vars none rest := by
  rw [pyFormatGo.eq_def]
  split <;> simp_all

theorem pyFormatGo_open_field (vars : List (String × String)) (c2 : Char)
    (rest2 : List Char) (h : c2 ≠ '{') :
    pyFormatGo vars none ('{' :: c2 :: rest2) = pyFormatGo vars (some []) (c2 :: rest2) := by
  rw [pyFormatGo.eq_def]
  split <;> try simp_all
  rename_i hc1 hc2 heq
  exact absurd heq.1.symm hc1

theorem pyFormatGo_literal (vars : List (String × String)) :
    ∀ cs : List Char, noBraces cs → pyFormatGo vars none cs = .ok (String.mk cs, []) := by
  intro cs
  induction cs with
  | nil => intro _; rfl
  | cons c rest ih =>
    intro h
    have hc := h c (List.mem_cons_self c rest)
    have hrest : noBraces rest := fun x hx => h x (List.mem_cons_of_mem c hx)
    rw [pyFormatGo_cons_lit vars c rest hc.1 hc.2, ih hrest]
    rfl

theorem pyFormatGo_append_lit (vars : List (String × String)) :
    ∀ (pre : List Char), noBraces pre → ∀ (rest : List Char),
      pyFormatGo vars none (pre ++ rest) =
        (fun p => (String.mk pre ++ p.1, p.2)) <$> pyFormatGo vars none rest := by
  intro pre
  induction pre with
  | nil =>
    intro _ rest
    cases hx : pyFormatGo vars none rest <;> simp [hx]
  | cons c pre ih =>
    intro h rest
    have hc := h c (List.mem_cons_self c pre)
    have hpre : noBraces pre := fun x hx => h x (List.mem_cons_of_mem c hx)
    have : (c :: pre) ++ rest = c :: (pre ++ rest) := rfl
    rw [this, pyFormatGo_cons_lit vars c _ hc.1 hc.2, ih hpre rest]
    cases hx : pyFormatGo vars none rest <;> rfl

theorem pyFormatGo_body_field (value : String) (rest : List Char) :
    pyFormatGo (escapeVars [("body", .str value)]) none
      ('{' :: 'b' :: 'o' :: 'd' :: 'y' :: '}' :: rest) =
    (fun p => (escape_braces value ++ p.1, "body" :: p.2)) <$>
      pyFormatGo (escapeVars [("body", .str value)]) none rest := rfl

theorem pyFormat_splice (value : String) (pre post : List Char)
    (hpre : noBraces pre) (hpost : noBraces post) :
    format_prompt (String.mk (pre ++ '{' :: 'b' :: 'o' :: 'd' :: 'y' :: '}' :: post))
        [("body", .str value)] =
      .ok (String.mk pre ++ (escape_braces value ++ String.mk post)) := by
  unfold format_prompt format_prompt_trace pyFormat
  rw [show (String.mk (pre ++ '{' :: 'b' :: 'o' :: 'd' :: 'y' :: '}' :: post)).data =
    pre ++ '{' :: 'b' :: 'o' :: 'd' :: 'y' :: '}' :: post from rfl]
  rw [pyFormatGo_append_lit _ pre hpre _, pyFormatGo_body_field value post,
    pyFormatGo_literal _ post hpost]
  rfl

end Prompts

namespace Prompts

theorem fmtNames_map_lit (s : String) (x : Except FmtError (String × List String)) :
    fmtNames ((fun p => (s ++ p.1, p.2)) <$> x) = fmtNames x := by
  cases x <;> rfl

theorem fmtNames_map_subst (s name : String) (x : Except FmtError (String × List String)) :
    fmtNames ((fun p => (s ++ p.1, name :: p.2)) <$> x) =
      (fun ns => name :: ns) <$> fmtNames x := by
  cases x <;> rfl

theorem pyFormatGo_open_open (vars : List (String × String)) (rest : List Char) :
    pyFormatGo vars none ('{' :: '{' :: rest) =
      (fun p => (String.mk ['{'] ++ p.1, p.2)) <$> pyFormatGo vars none rest := rfl

theorem pyFormatGo_close_close (vars : List (String × String)) (rest : List Char) :
    pyFormatGo vars none ('}' :: '}' :: rest) =
      (fun p => (String.mk ['}'] ++ p.1, p.2)) <$> pyFormatGo vars none rest := rfl

theorem pyFormatGo_close_err (vars : List (String × String)) (c2 : Char)
    (rest2 : List Char) (h : c2 ≠ '}') :
    pyFormatGo vars none ('}' :: c2 :: rest2) =
      .error (.valueError "Single brace encountered in format string") := by
  rw [pyFormatGo.eq_def]
  split <;> try simp_all
  rename_i hc1 hc2 heq
  exact absurd heq.1.symm hc2

theorem pyFormatGo_field_close (vars : List (String × String)) (acc rest : List Char) :
    pyFormatGo vars (some acc) ('}' :: rest) =
      (match lookupVar vars (String.mk acc.reverse) with
        | some v => (fun p => (v ++ p.1, String.mk acc.reverse :: p.2)) <$>
            pyFormatGo vars none rest
        | none => .error (.keyError (String.mk acc.reverse))) := rfl

theorem pyFormatGo_field_cons (vars : List (String × String)) (acc : List Char)
    (c : Char) (rest : List Char) (h1 : c ≠ '}') (h2 : c ≠ '{') :
    pyFormatGo vars (some acc) (c :: rest) = pyFormatGo vars (some (c :: acc)) rest := by
  rw [pyFormatGo.eq_def]
  simp [h1, h2]

theorem pyFormatGo_names_congr (v1 v2 : List (String × String))
    (hk : ∀ name, (lookupVar v1 name).isSome = (lookupVar v2 name).isSome) :
    ∀ (n : Nat) (cs : List Char), cs.length ≤ n → ∀ field,
      fmtNames (pyFormatGo v1 field cs) = fmtNames (pyFormatGo v2 field cs) := by
  intro n
  induction n with
  | zero =>
    intro cs hlen field
    have hnil : cs = [] := List.eq_nil_of_length_eq_zero (Nat.le_zero.mp hlen)
    subst hnil
    cases field <;> rfl
  | succ n ihn =>
    intro cs hlen field
    cases cs with
    | nil => cases field <;> rfl
    | cons c rest =>
      have hrest : rest.length ≤ n := by
        simp only [List.length_cons] at hlen; omega
      cases field with
      | some acc =>
        by_cases hc : c = '}'
        · subst hc
          rw [pyFormatGo_field_close, pyFormatGo_field_close]
          have h2 := hk (String.mk acc.reverse)
          cases h1 : lookupVar v1 (String.mk acc.reverse) with
          | some v =>
            rw [h1] at h2
            cases h1x : lookupVar v2 (String.mk acc.reverse) with
            | some w =>
              simp only [fmtNames_map_subst, ihn rest hrest none]
            | none => rw [h1x] at h2; simp at h2
          | none =>
            rw [h1] at h2
            cases h1x : lookupVar v2 (String.mk acc.reverse) with
            | some w => rw [h1x] at h2; simp at h2
            | none => rfl
        · by_cases hc2 : c = '{'
          · subst hc2
            rfl
          · rw [pyFormatGo_field_cons v1 acc c rest hc hc2,
              pyFormatGo_field_cons v2 acc c rest hc hc2]
            exact ihn rest hrest (some (c :: acc))
      | none =>
        by_cases hc : c = '{'
        · subst hc
          cases rest with
          | nil => rfl
          | cons c2 rest2 =>
            have hrest2 : rest2.length ≤ n := by
              simp only [List.length_cons] at hrest ⊢; omega
            by_cases hc2 : c2 = '{'
            · subst hc2
              rw [pyFormatGo_open_open, pyFormatGo_open_open,
                fmtNames_map_lit, fmtNames_map_lit]
              exact ihn rest2 hrest2 none
            · rw [pyFormatGo_open_field v1 c2 rest2 hc2,
                pyFormatGo_open_field v2 c2 rest2 hc2]
              exact ihn (c2 :: rest2) hrest (some [])
        · by_cases hc2 : c = '}'
          · subst hc2
            cases rest with
            | nil => rfl
            | cons c2 rest2 =>
              have hrest2 : rest2.length ≤ n := by
                simp only [List.length_cons] at hrest ⊢; omega
              by_cases hc3 : c2 = '}'
              · subst hc3
                rw [pyFormatGo_close_close, pyFormatGo_close_close,
                  fmtNames_map_lit, fmtNames_map_lit]
                exact ihn rest2 hrest2 none
              · rw [pyFormatGo_close_err v1 c2 rest2 hc3,
                  pyFormatGo_close_err v2 c2 rest2 hc3]
          · rw [pyFormatGo_cons_lit v1 c rest hc hc2,
              pyFormatGo_cons_lit v2 c rest hc hc2,
              fmtNames_map_lit, fmtNames_map_lit]
            exact ihn rest hrest none

theorem escapeVars_keys (vs : List (String × PyVal)) :
    (escapeVars vs).map Prod.fst = vs.map Prod.fst := by
  induction vs with
  | nil => rfl
  | cons a tl ih => simp only [escapeVars, List.map_cons] at ih ⊢; simp [ih]

theorem lookupVar_isSome_keys (v1 v2 : List (String × String))
    (h : v1.map Prod.fst = v2.map Prod.fst) :
    ∀ name, (lookupVar v1 name).isSome = (lookupVar v2 name).isSome := by
  induction v1 generalizing v2 with
  | nil =>
    cases v2 with
    | nil => intro name; rfl
    | cons b tl2 => simp at h
  | cons a tl ih =>
    cases v2 with
    | nil => simp at h
    | cons b tl2 =>
      obtain ⟨ka, va⟩ := a
      obtain ⟨kb, vb⟩ := b
      simp only [List.map_cons, List.cons.injEq] at h
      obtain ⟨h1, h2⟩ := h
      subst h1
      intro name
      simp only [lookupVar]
      by_cases hk : ka = name
      · simp [hk]
      · simp [hk, ih tl2 h2 name]

end Prompts

/-- C6 counterexample: `format_prompt` doubles the braces of string
values, and `str.format` splices replacement values verbatim without
unescaping them — so a value `\x7bmalicious\x7d` appears in the output as
`\x7b\x7bmalicious\x7d\x7d`, with doubled braces, not verbatim as the
claim states. -/
theorem c6_counterexample_value_braces_doubled :
    Prompts.format_prompt "A \x7bbody\x7d B" [("body", .str "\x7bmalicious\x7d")] =
      .ok "A \x7b\x7bmalicious\x7d\x7d B" ∧
    ("A \x7b\x7bmalicious\x7d\x7d B" : String) ≠ "A \x7bmalicious\x7d B" := by
  constructor
  · rfl
  · decide

/-- C6 amended: a brace-containing string value appears in the output
with each literal brace doubled (never interpreted as a placeholder), and
which placeholders of the template get substituted — the substitution
trace — depends only on the variable names supplied, not on their values. -/
theorem c6_escaped_value_braces_doubled_no_injection :
    (∀ (template : String) (v1 v2 : List (String × Prompts.PyVal)),
      v1.map Prod.fst = v2.map Prod.fst →
      Prompts.fmtNames (Prompts.format_prompt_trace template v1) =
        Prompts.fmtNames (Prompts.format_prompt_trace template v2)) ∧
    (∀ (pre post : List Char) (value : String),
      Prompts.noBraces pre → Prompts.noBraces post →
      Prompts.format_prompt
          (String.mk (pre ++ '{' :: 'b' :: 'o' :: 'd' :: 'y' :: '}' :: post))
          [("body", .str value)] =
        .ok (String.mk pre ++ (Prompts.escape_braces value ++ String.mk post))) := by
  constructor
  · intro template v1 v2 h
    exact Prompts.pyFormatGo_names_congr (Prompts.escapeVars v1) (Prompts.escapeVars v2)
      (Prompts.lookupVar_isSome_keys _ _
        (by rw [Prompts.escapeVars_keys, Prompts.escapeVars_keys, h]))
      template.data.length template.data (le_refl _) none
  · intro pre post value hpre hpost
    exact Prompts.pyFormat_splice value pre post hpre hpost

/-- Witness for C6 at concrete inputs: a braced and a brace-free value
yield the same substitution trace, and the braced value is spliced in
escaped form. -/
theorem c6_escaped_value_braces_doubled_no_injection_witness :
    Prompts.fmtNames (Prompts.format_prompt_trace "Hi \x7bbody\x7d"
        [("body", .str "\x7bm\x7d")]) =
      Prompts.fmtNames (Prompts.format_prompt_trace "Hi \x7bbody\x7d"
        [("body", .str "safe")]) ∧
    Prompts.format_prompt
        (String.mk (['A', ' '] ++ '{' :: 'b' :: 'o' :: 'd' :: 'y' :: '}' :: [' ', 'B']))
        [("body", .str "\x7bmal\x7d")] =
      .ok (String.mk ['A', ' '] ++
        (Prompts.escape_braces "\x7bmal\x7d" ++ String.mk [' ', 'B'])) :=
  ⟨c6_escaped_value_braces_doubled_no_injection.1 "Hi \x7bbody\x7d"
      [("body", .str "\x7bm\x7d")] [("body", .str "safe")] rfl,
    c6_escaped_value_braces_doubled_no_injection.2 ['A', ' '] [' ', 'B']
      "\x7bmal\x7d"
      (by intro c hc; simp at hc; rcases hc with rfl | rfl <;> decide)
      (by intro c hc; simp at hc; rcases hc with rfl | rfl <;> decide)⟩
